import Mathlib

set_option linter.unusedVariables false

/-!
Shallow embedding of `attalos/imgtxt_algorithms/approaches/base.py`
(class `AttalosModel`), a Python 2 abstract base class for model wrappers.

Modelling conventions:
* Python values flowing through the class (fetches, feed dicts, paths,
  tensors, numpy arrays) are an opaque inductive `PyVal`; external objects
  are `PyVal.obj tag args`.
* The TensorFlow session and saver are records of total functions: the
  external runtime is assumed to succeed, so the only errors are the ones
  this class itself can raise (`NotImplementedError`, `ZeroDivisionError`,
  `AttributeError`, `KeyError`), collected in `PyError`.
* Methods that can raise return `Except PyError _`; methods that cannot
  return plain values.
* `self.model_info` is an attribute the subclass may or may not have set:
  `Option (List (String × PyVal))`, an association list standing for the
  Python dict. `__init__` sets only `saver`, so it leaves it unset.
* The dataset is a record with a `num_images : Int` field and a stateful
  `get_next_batch`, modelled by explicit state passing over a state type σ.
* `iter_batches` is a Python 2 generator; its finite yielded sequence is
  modelled as a `List`, and the lazy failure on first consumption as the
  `Except.error` result. `dataset.num_images / batch_size` is Python 2
  integer floor division, i.e. `Int.fdiv`; `int(_)` on an int is the
  identity; `xrange n` for `n ≤ 0` is empty, i.e. `List.range n.toNat`.
* `iter_batches` calls the dynamically dispatched `self.prep_fit`; the
  generic definition therefore takes the (possibly raising) hook as the
  function argument `pf`. On the base class itself that hook is
  `AttalosModel.prep_fit`, which always raises.
-/

/-- Python exceptions that the code of `base.py` itself can raise. -/
inductive PyError where
  | notImplementedError : PyError
  | zeroDivisionError : PyError
  | attributeError : String → PyError
  | keyError : String → PyError
deriving DecidableEq, Repr

/-- Opaque model of the Python values handled by `AttalosModel`:
strings, tuples, lists, dicts (as pair lists; the class never looks a
key up in one of these), `None`, and opaque external objects. -/
inductive PyVal where
  | none : PyVal
  | str : String → PyVal
  | pair : PyVal → PyVal → PyVal
  | list : List PyVal → PyVal
  | dict : List (PyVal × PyVal) → PyVal
  | obj : String → List PyVal → PyVal

/-- A TensorFlow session: `run fetches feed_dict` is the external
execution call; a call without a feed dict passes `PyVal.none`. -/
structure Session where
  run : PyVal → PyVal → PyVal

/-- A `tf.train.Saver`: external checkpoint serialization. -/
structure Saver where
  save : Session → PyVal → PyVal
  restore : Session → PyVal → PyVal

/-- The attributes of an `AttalosModel` instance. `__init__` assigns only
`saver`; `model_info` is `Option.none` until a subclass assigns it. Its
dict has string keys (`"input"`, `"prediction"`) in the source. -/
structure AttalosModel where
  saver : Saver
  model_info : Option (List (String × PyVal))

/-- `AttalosModel.__init__`: sets `self.saver = tf.train.Saver()` and
nothing else, so `model_info` is left unset. -/
def AttalosModel.init (saver : Saver) : AttalosModel :=
  { saver := saver, model_info := Option.none }

/-- An Attalos dataset: `num_images` and a stateful `get_next_batch`
taking the batch size, modelled by explicit state passing. -/
structure Dataset (σ Data : Type) where
  num_images : Int
  get_next_batch : σ → Int → Data × σ

/-- Python dict lookup `d[k]` for the string-keyed `model_info` dict:
`KeyError` when the key is absent. -/
def pyDictGet (d : List (String × PyVal)) (k : String) : Except PyError PyVal :=
  match d.find? (fun kv => kv.1 == k) with
  | Option.none => Except.error (PyError.keyError k)
  | Option.some kv => Except.ok kv.2

/-- `initialize_model`: runs `sess.run(tf.initialize_all_variables())`
and returns `None`. -/
def AttalosModel.initialize_model (self : AttalosModel) (sess : Session) : PyVal :=
  let _ := sess.run (PyVal.obj "tf.initialize_all_variables" []) PyVal.none
  PyVal.none

/-- `save`: delegates to `self.saver.save(sess, model_output_path)` and
returns `None`. -/
def AttalosModel.save (self : AttalosModel) (sess : Session)
    (model_output_path : PyVal) : PyVal :=
  let _ := self.saver.save sess model_output_path
  PyVal.none

/-- `load`: delegates to `self.saver.restore(sess, model_input_path)` and
returns `None`. -/
def AttalosModel.load (self : AttalosModel) (sess : Session)
    (model_input_path : PyVal) : PyVal :=
  let _ := self.saver.restore sess model_input_path
  PyVal.none

/-- `_run`: `vals = sess.run(fetches, feed_dict=feed_dict); return vals`. -/
def AttalosModel._run (self : AttalosModel) (sess : Session)
    (fetches feed_dict : PyVal) : PyVal :=
  let vals := sess.run fetches feed_dict
  vals

/-- `fit`: `return self._run(sess, fetches, feed_dict)`. -/
def AttalosModel.fit (self : AttalosModel) (sess : Session)
    (fetches feed_dict : PyVal) : PyVal :=
  self._run sess fetches feed_dict

/-- `predict`: `return self._run(sess, fetches, feed_dict)`. -/
def AttalosModel.predict (self : AttalosModel) (sess : Session)
    (fetches feed_dict : PyVal) : PyVal :=
  self._run sess fetches feed_dict

/-- `predict_feats`: `return self._run(sess, self.model_info['prediction'],
{self.model_info['input']: image_features})`. Accessing the unset
`model_info` attribute raises `AttributeError`; a missing dict key raises
`KeyError`; argument evaluation is left to right, so `'prediction'` is
looked up before `'input'`. -/
def AttalosModel.predict_feats (self : AttalosModel) (sess : Session)
    (image_features : PyVal) : Except PyError PyVal :=
  match self.model_info with
  | Option.none => Except.error (PyError.attributeError "model_info")
  | Option.some mi =>
    match pyDictGet mi "prediction" with
    | Except.error e => Except.error e
    | Except.ok pred =>
      match pyDictGet mi "input" with
      | Except.error e => Except.error e
      | Except.ok inp =>
        Except.ok (self._run sess pred (PyVal.dict [(inp, image_features)]))

/-- `prep_fit`: `raise NotImplementedError()` for every argument. -/
def AttalosModel.prep_fit (self : AttalosModel) (data : PyVal) :
    Except PyError PyVal :=
  Except.error PyError.notImplementedError

/-- `prep_predict`: `raise NotImplementedError()` for every argument. -/
def AttalosModel.prep_predict (self : AttalosModel)
    (dataset : Dataset PyVal PyVal) (cross_eval : Bool) :
    Except PyError PyVal :=
  Except.error PyError.notImplementedError

/-- `post_predict`: `return predict_fetches`, ignoring `cross_eval`. -/
def AttalosModel.post_predict (self : AttalosModel)
    (predict_fetches : PyVal) (cross_eval : Bool) : PyVal :=
  predict_fetches

/-- `get_training_loss`: `raise NotImplementedError()` for every argument. -/
def AttalosModel.get_training_loss (self : AttalosModel)
    (fit_fetches : PyVal) : Except PyError PyVal :=
  Except.error PyError.notImplementedError

/-- The loop body of `iter_batches`: `for cur_batch_num in xrange(n):
data = dataset.get_next_batch(batch_size); fetches, feed_dict =
self.prep_fit(data); yield fetches, feed_dict`. `pf` is the dispatched
`self.prep_fit`, which may raise; a raise ends the generator with that
error. Returns the yielded items and the final dataset state. -/
def iterLoop {σ Data β : Type} (pf : Data → Except PyError β)
    (dataset : Dataset σ Data) (batch_size : Int) :
    Nat → σ → Except PyError (List β × σ)
  | 0, s => Except.ok ([], s)
  | Nat.succ n, s =>
    let r := dataset.get_next_batch s batch_size
    match pf r.1 with
    | Except.error e => Except.error e
    | Except.ok p =>
      match iterLoop pf dataset batch_size n r.2 with
      | Except.error e => Except.error e
      | Except.ok rest => Except.ok (p :: rest.1, rest.2)

/-- `iter_batches(self, dataset, batch_size)`: computes
`num_batches = int(dataset.num_images / batch_size)` — Python 2 floor
division, raising `ZeroDivisionError` when `batch_size == 0` — then runs
the loop over `xrange(num_batches)` (empty when `num_batches ≤ 0`).
`pf` is the dispatched `self.prep_fit`. -/
def iter_batches {σ Data β : Type} (pf : Data → Except PyError β)
    (dataset : Dataset σ Data) (batch_size : Int) (s : σ) :
    Except PyError (List β × σ) :=
  if batch_size = 0 then Except.error PyError.zeroDivisionError
  else
    iterLoop pf dataset batch_size
      (Int.fdiv dataset.num_images batch_size).toNat s

/-- The sequence of batches obtained from `n` successive
`dataset.get_next_batch(batch_size)` calls starting in state `s`,
together with the state after those calls. -/
def batchTrace {σ Data : Type} (dataset : Dataset σ Data)
    (batch_size : Int) : Nat → σ → List Data × σ
  | 0, s => ([], s)
  | Nat.succ n, s =>
    let r := dataset.get_next_batch s batch_size
    let t := batchTrace dataset batch_size n r.2
    (r.1 :: t.1, t.2)

/-- The methods defined in the body of class `AttalosModel`
(every `def` of the class except the constructor `__init__`). -/
inductive BaseMethod where
  | initialize_model : BaseMethod
  | save : BaseMethod
  | load : BaseMethod
  | iter_batches : BaseMethod
  | runMethod : BaseMethod
  | fit : BaseMethod
  | predict_feats : BaseMethod
  | predict : BaseMethod
  | prep_fit : BaseMethod
  | prep_predict : BaseMethod
  | post_predict : BaseMethod
  | get_training_loss : BaseMethod
deriving DecidableEq, Fintype, Repr

/-- One argument bundle covering the parameters of every method of the
class, so that invoking any method on the base type has one uniform
shape. `self` is the receiving instance, `dstate` the dataset's state. -/
structure CallArgs where
  self : AttalosModel
  sess : Session
  fetches : PyVal
  feed_dict : PyVal
  path : PyVal
  data : PyVal
  dataset : Dataset PyVal PyVal
  dstate : PyVal
  batch_size : Int
  image_features : PyVal
  fit_fetches : PyVal
  cross_eval : Bool

/-- Invoking a method directly on the base type `AttalosModel` with the
given arguments: each case dispatches to the method's embedding above.
For `iter_batches` the dispatched `self.prep_fit` is the base class's own
(raising) `prep_fit`, and the generator is consumed to a list. -/
def callBase : BaseMethod → CallArgs → Except PyError PyVal
  | BaseMethod.initialize_model, a => Except.ok (a.self.initialize_model a.sess)
  | BaseMethod.save, a => Except.ok (a.self.save a.sess a.path)
  | BaseMethod.load, a => Except.ok (a.self.load a.sess a.path)
  | BaseMethod.iter_batches, a =>
    match iter_batches (fun d => a.self.prep_fit d) a.dataset a.batch_size a.dstate with
    | Except.error e => Except.error e
    | Except.ok r => Except.ok (PyVal.list r.1)
  | BaseMethod.runMethod, a => Except.ok (a.self._run a.sess a.fetches a.feed_dict)
  | BaseMethod.fit, a => Except.ok (a.self.fit a.sess a.fetches a.feed_dict)
  | BaseMethod.predict_feats, a => a.self.predict_feats a.sess a.image_features
  | BaseMethod.predict, a => Except.ok (a.self.predict a.sess a.fetches a.feed_dict)
  | BaseMethod.prep_fit, a => a.self.prep_fit a.data
  | BaseMethod.prep_predict, a => a.self.prep_predict a.dataset a.cross_eval
  | BaseMethod.post_predict, a => Except.ok (a.self.post_predict a.fetches a.cross_eval)
  | BaseMethod.get_training_loss, a => a.self.get_training_loss a.fit_fetches

/-- A method fails unconditionally with the must-be-overridden signal
when every direct invocation on the base type raises
`NotImplementedError`. -/
def failsNotImplemented (m : BaseMethod) : Prop :=
  ∀ a : CallArgs, callBase m a = Except.error PyError.notImplementedError

/-- The spec's claim shape for the failing-hook count: there are exactly
two methods failing unconditionally with the not-implemented signal, and
every other method of the base class succeeds on some invocation. -/
def exactlyTwoHooksFail : Prop :=
  ∃ m₁ m₂ : BaseMethod, m₁ ≠ m₂ ∧
    failsNotImplemented m₁ ∧ failsNotImplemented m₂ ∧
    ∀ m : BaseMethod, m ≠ m₁ → m ≠ m₂ → ∃ a v, callBase m a = Except.ok v

/-- A concrete benign argument bundle: a session and saver that always
return `None`, a base instance whose subclass has set `model_info` with
both keys, a dataset with zero images, batch size 1. -/
def benignArgs : CallArgs :=
  { self :=
      { saver := { save := fun _ _ => PyVal.none, restore := fun _ _ => PyVal.none }
        model_info := Option.some
          [("input", PyVal.obj "input_tensor" []),
           ("prediction", PyVal.obj "prediction_tensor" [])] }
    sess := { run := fun _ _ => PyVal.none }
    fetches := PyVal.none
    feed_dict := PyVal.none
    path := PyVal.str "/tmp/model"
    data := PyVal.none
    dataset := { num_images := 0, get_next_batch := fun s _ => (PyVal.none, s) }
    dstate := PyVal.none
    batch_size := 1
    image_features := PyVal.obj "image_features" []
    fit_fetches := PyVal.none
    cross_eval := false }

/-- When the dispatched `prep_fit` never raises, the loop succeeds and
yields exactly the hook applied to each successively retrieved batch. -/
theorem iterLoop_ok {σ Data β : Type} (f : Data → β)
    (dataset : Dataset σ Data) (batch_size : Int) :
    ∀ (n : Nat) (s : σ),
      iterLoop (fun d => Except.ok (f d)) dataset batch_size n s =
        Except.ok ((batchTrace dataset batch_size n s).1.map f,
                   (batchTrace dataset batch_size n s).2) := by
  intro n
  induction n with
  | zero => intro s; rfl
  | succ n ih =>
    intro s
    simp only [iterLoop, batchTrace, ih, List.map_cons]

/-- `n` successive `get_next_batch` calls retrieve exactly `n` batches. -/
theorem batchTrace_length {σ Data : Type} (dataset : Dataset σ Data)
    (batch_size : Int) :
    ∀ (n : Nat) (s : σ), (batchTrace dataset batch_size n s).1.length = n := by
  intro n
  induction n with
  | zero => intro s; rfl
  | succ n ih => intro s; simp only [batchTrace, List.length_cons, ih]

/-- Python 2 floor division of a non-negative size by a positive batch
size, coerced back through `xrange`, is natural-number division. -/
theorem toNat_fdiv_of_nonneg {N B : Int} (hN : 0 ≤ N) (hB : 0 < B) :
    (Int.fdiv N B).toNat = N.toNat / B.toNat := by
  lift N to ℕ using hN with n
  lift B to ℕ using hB.le with b
  rw [Int.fdiv_eq_ediv _ (by positivity)]
  norm_cast

/-- Floor-dividing a non-negative size by `-1` is non-positive, so the
`xrange` bound is the empty range. -/
theorem toNat_fdiv_negOne {N : Int} (hN : 0 ≤ N) :
    (Int.fdiv N (-1)).toNat = 0 := by
  have h : Int.fdiv N (-1) ≤ 0 :=
    Int.fdiv_nonpos hN (by omega)
  omega

/-- A concrete seven-image dataset whose state counts the
`get_next_batch` calls made and whose batches report that count. -/
def dsSeven : Dataset Nat Nat :=
  { num_images := 7, get_next_batch := fun s _ => (s, s + 1) }

/-- Claim C1: for every dataset with non-negative size and every positive
batch size, `iter_batches` (with a non-raising dispatched `prep_fit`)
yields exactly `⌊num_images / batch_size⌋` pairs and never more; any
remainder smaller than the batch size produces no batch. -/
theorem iter_batches_yields_floor_count {σ Data β : Type} (f : Data → β)
    (dataset : Dataset σ Data) (batch_size : Int) (s : σ)
    (hN : 0 ≤ dataset.num_images) (hB : 0 < batch_size) :
    ∃ l s₂,
      iter_batches (fun d => Except.ok (f d)) dataset batch_size s =
        Except.ok (l, s₂) ∧
      l.length = dataset.num_images.toNat / batch_size.toNat := by
  refine ⟨(batchTrace dataset batch_size
      (Int.fdiv dataset.num_images batch_size).toNat s).1.map f,
    (batchTrace dataset batch_size
      (Int.fdiv dataset.num_images batch_size).toNat s).2, ?_, ?_⟩
  · simp only [iter_batches, if_neg (show ¬batch_size = 0 by omega)]
    exact iterLoop_ok f dataset batch_size _ s
  · rw [List.length_map, batchTrace_length, toNat_fdiv_of_nonneg hN hB]

/-- Witness for C1: seven images with batch size two give three batches. -/
theorem iter_batches_yields_floor_count_witness :
    ∃ l s₂,
      iter_batches (fun d => Except.ok (Nat.succ d)) dsSeven 2 0 =
        Except.ok (l, s₂) ∧
      l.length = dsSeven.num_images.toNat / (2 : Int).toNat :=
  iter_batches_yields_floor_count Nat.succ dsSeven 2 0 (by decide) (by decide)

/-- Claim C3: calling `prep_fit`, `prep_predict` or `get_training_loss`
directly on the base class raises `NotImplementedError` unconditionally,
for every argument value. -/
theorem hooks_raise_notImplemented :
    (∀ (self : AttalosModel) (data : PyVal),
        self.prep_fit data = Except.error PyError.notImplementedError) ∧
    (∀ (self : AttalosModel) (dataset : Dataset PyVal PyVal) (cross_eval : Bool),
        self.prep_predict dataset cross_eval =
          Except.error PyError.notImplementedError) ∧
    (∀ (self : AttalosModel) (fit_fetches : PyVal),
        self.get_training_loss fit_fetches =
          Except.error PyError.notImplementedError) :=
  ⟨fun _ _ => rfl, fun _ _ _ => rfl, fun _ _ => rfl⟩

/-- Claim C4: the default `post_predict` hook is the identity on its
`predict_fetches` input, for both values of `cross_eval`. -/
theorem post_predict_identity (self : AttalosModel) (predict_fetches : PyVal)
    (cross_eval : Bool) :
    self.post_predict predict_fetches cross_eval = predict_fetches := rfl

/-- Claim C5: `fit` and `predict` are pure forwarders: each returns
exactly what `sess.run(fetches, feed_dict=feed_dict)` returns, so they
are extensionally equal to each other and to the direct delegation. -/
theorem fit_predict_pure_forwarders (self : AttalosModel) (sess : Session)
    (fetches feed_dict : PyVal) :
    self.fit sess fetches feed_dict = sess.run fetches feed_dict ∧
    self.predict sess fetches feed_dict = sess.run fetches feed_dict ∧
    self.fit sess fetches feed_dict = self.predict sess fetches feed_dict :=
  ⟨rfl, rfl, rfl⟩

/-- Claim C6: when `model_info` is set and has both the `"input"` and
`"prediction"` keys, `predict_feats` does not fail on key lookup and
returns exactly `sess.run(model_info['prediction'],
feed_dict={model_info['input']: image_features})`. -/
theorem predict_feats_delegates (self : AttalosModel) (sess : Session)
    (image_features : PyVal) (mi : List (String × PyVal)) (vin vpred : PyVal)
    (hmi : self.model_info = Option.some mi)
    (hin : pyDictGet mi "input" = Except.ok vin)
    (hpred : pyDictGet mi "prediction" = Except.ok vpred) :
    self.predict_feats sess image_features =
      Except.ok (sess.run vpred (PyVal.dict [(vin, image_features)])) := by
  simp only [AttalosModel.predict_feats, hmi, hin, hpred, AttalosModel._run]

/-- Witness for C6: a concrete instance with both keys set. -/
theorem predict_feats_delegates_witness :
    benignArgs.self.predict_feats benignArgs.sess (PyVal.obj "feats" []) =
      Except.ok (benignArgs.sess.run (PyVal.obj "prediction_tensor" [])
        (PyVal.dict [(PyVal.obj "input_tensor" [], PyVal.obj "feats" [])])) :=
  predict_feats_delegates benignArgs.self benignArgs.sess (PyVal.obj "feats" [])
    [("input", PyVal.obj "input_tensor" []),
     ("prediction", PyVal.obj "prediction_tensor" [])]
    (PyVal.obj "input_tensor" []) (PyVal.obj "prediction_tensor" [])
    rfl rfl rfl

/-- Claim C7: with a positive batch size, `iter_batches` yields, in
order, the dispatched `prep_fit` applied to each batch of the call trace
of successive `get_next_batch(batch_size)` calls, and that trace has
exactly `⌊num_images / batch_size⌋` calls. -/
theorem iter_batches_in_order {σ Data β : Type} (f : Data → β)
    (dataset : Dataset σ Data) (batch_size : Int) (s : σ)
    (hN : 0 ≤ dataset.num_images) (hB : 0 < batch_size) :
    iter_batches (fun d => Except.ok (f d)) dataset batch_size s =
      Except.ok
        ((batchTrace dataset batch_size
            (dataset.num_images.toNat / batch_size.toNat) s).1.map f,
         (batchTrace dataset batch_size
            (dataset.num_images.toNat / batch_size.toNat) s).2) ∧
    (batchTrace dataset batch_size
        (dataset.num_images.toNat / batch_size.toNat) s).1.length =
      dataset.num_images.toNat / batch_size.toNat := by
  constructor
  · simp only [iter_batches, if_neg (show ¬batch_size = 0 by omega),
      toNat_fdiv_of_nonneg hN hB]
    exact iterLoop_ok f dataset batch_size _ s
  · exact batchTrace_length dataset batch_size _ s

/-- Witness for C7: seven images, batch size two, call-counting state. -/
theorem iter_batches_in_order_witness :
    iter_batches (fun d => Except.ok (d + 10)) dsSeven 2 0 =
      Except.ok
        ((batchTrace dsSeven 2 (dsSeven.num_images.toNat / (2 : Int).toNat) 0).1.map
           (fun d => d + 10),
         (batchTrace dsSeven 2 (dsSeven.num_images.toNat / (2 : Int).toNat) 0).2) ∧
    (batchTrace dsSeven 2 (dsSeven.num_images.toNat / (2 : Int).toNat) 0).1.length =
      dsSeven.num_images.toNat / (2 : Int).toNat :=
  iter_batches_in_order (fun d => d + 10) dsSeven 2 0 (by decide) (by decide)

/-- Claim C8: with `batch_size = -1` and a positive dataset size, the
`xrange` bound `int(num_images / -1)` is negative, so `iter_batches`
yields no batch at all (not the whole dataset as one batch) and leaves
the dataset untouched. -/
theorem iter_batches_negOne_empty {σ Data β : Type}
    (pf : Data → Except PyError β) (dataset : Dataset σ Data) (s : σ)
    (hN : 0 < dataset.num_images) :
    iter_batches pf dataset (-1) s = Except.ok ([], s) := by
  simp only [iter_batches, if_neg (show ¬(-1 : Int) = 0 by decide),
    toNat_fdiv_negOne hN.le]
  rfl

/-- Witness for C8: seven images, batch size `-1`, zero batches. -/
theorem iter_batches_negOne_empty_witness :
    iter_batches (fun d => Except.ok d) dsSeven (-1) 0 = Except.ok ([], 0) :=
  iter_batches_negOne_empty (fun d => Except.ok d) dsSeven 0 (by decide)

/-- Claim C9: the division in `iter_batches` is unguarded: with
`batch_size = 0`, consuming the generator fails with `ZeroDivisionError`
before any pair is yielded, for every dataset and every hook. -/
theorem iter_batches_zero_division {σ Data β : Type}
    (pf : Data → Except PyError β) (dataset : Dataset σ Data) (s : σ) :
    iter_batches pf dataset 0 s = Except.error PyError.zeroDivisionError := rfl

/-- Claim C10: `__init__` sets only `saver`, so on a base instance with
`model_info` never assigned, `predict_feats` fails with the
missing-attribute error for every session and every input. -/
theorem predict_feats_missing_attribute (saver : Saver) (sess : Session)
    (image_features : PyVal) :
    (AttalosModel.init saver).predict_feats sess image_features =
      Except.error (PyError.attributeError "model_info") := rfl

/-- The three unimplemented hooks each fail unconditionally on the base
type with the not-implemented signal. -/
theorem three_hooks_failNotImplemented :
    failsNotImplemented BaseMethod.prep_fit ∧
    failsNotImplemented BaseMethod.prep_predict ∧
    failsNotImplemented BaseMethod.get_training_loss :=
  ⟨fun _ => rfl, fun _ => rfl, fun _ => rfl⟩

/-- Every method other than the three hooks succeeds on the benign
argument bundle. -/
theorem callBase_benign_ok (m : BaseMethod)
    (h₁ : m ≠ BaseMethod.prep_fit) (h₂ : m ≠ BaseMethod.prep_predict)
    (h₃ : m ≠ BaseMethod.get_training_loss) :
    ∃ v, callBase m benignArgs = Except.ok v := by
  cases m <;>
    first
      | exact absurd rfl h₁
      | exact absurd rfl h₂
      | exact absurd rfl h₃
      | exact ⟨_, rfl⟩

/-- Any two distinct methods always leave one of the three hooks
uncovered. -/
theorem hooks_not_covered_by_two (m₁ m₂ : BaseMethod) :
    ∃ m : BaseMethod,
      (m = BaseMethod.prep_fit ∨ m = BaseMethod.prep_predict ∨
       m = BaseMethod.get_training_loss) ∧ m ≠ m₁ ∧ m ≠ m₂ := by
  revert m₁ m₂; decide

/-- Claim C2, counterexample: it is false that exactly two methods of
the base class fail unconditionally with the must-be-overridden signal
while every other method succeeds on some invocation — whichever two
methods are picked, a third hook among `prep_fit`, `prep_predict`,
`get_training_loss` still fails on every argument, e.g. the benign one. -/
theorem not_exactly_two_hooks_fail : ¬ exactlyTwoHooksFail := by
  rintro ⟨m₁, m₂, hne, h₁, h₂, hrest⟩
  obtain ⟨m, hm3, hne₁, hne₂⟩ := hooks_not_covered_by_two m₁ m₂
  obtain ⟨a, v, hok⟩ := hrest m hne₁ hne₂
  rcases hm3 with rfl | rfl | rfl <;> exact Except.noConfusion hok

/-- Claim C2 (amended): exactly three methods of the base class —
`prep_fit`, `prep_predict` and `get_training_loss` — fail
unconditionally with the must-be-overridden signal when invoked directly
on the base type; every other method of the base class has a working
default implementation, succeeding on a suitable invocation. -/
theorem exactly_three_hooks_fail :
    (∀ m : BaseMethod, failsNotImplemented m ↔
      (m = BaseMethod.prep_fit ∨ m = BaseMethod.prep_predict ∨
       m = BaseMethod.get_training_loss)) ∧
    (∀ m : BaseMethod,
      m ≠ BaseMethod.prep_fit → m ≠ BaseMethod.prep_predict →
      m ≠ BaseMethod.get_training_loss →
      ∃ a v, callBase m a = Except.ok v) := by
  constructor
  · intro m
    constructor
    · intro hfail
      by_contra hnot
      push_neg at hnot
      obtain ⟨v, hok⟩ := callBase_benign_ok m hnot.1 hnot.2.1 hnot.2.2
      rw [hfail benignArgs] at hok
      exact Except.noConfusion hok
    · rintro (rfl | rfl | rfl)
      · exact three_hooks_failNotImplemented.1
      · exact three_hooks_failNotImplemented.2.1
      · exact three_hooks_failNotImplemented.2.2
  · intro m h₁ h₂ h₃
    obtain ⟨v, hok⟩ := callBase_benign_ok m h₁ h₂ h₃
    exact ⟨benignArgs, v, hok⟩

/-- Witness for the amended C2: `prep_fit` is among the failing hooks,
and the generic `fit` succeeds on the benign invocation. -/
theorem exactly_three_hooks_fail_witness :
    failsNotImplemented BaseMethod.prep_fit ∧
    (∃ a v, callBase BaseMethod.fit a = Except.ok v) :=
  ⟨(exactly_three_hooks_fail.1 BaseMethod.prep_fit).mpr (Or.inl rfl),
   exactly_three_hooks_fail.2 BaseMethod.fit
     (by decide) (by decide) (by decide)⟩
